import Mathlib

/-!
Verification of `src/assets/icons/create_icons.py` (matt-wiley/mixologist).

The script iterates over the fixed size list [16, 32, 48, 128]; for each size it
draws a speaker rectangle and up to three sound-wave arcs on a transparent RGBA
canvas and saves it as `icon-{size}.png`, printing a confirmation line.  If the
drawing library import fails (ImportError), it instead prints a fallback notice
and writes one plain-text placeholder file per size.  We embed the geometry
arithmetic, the sequence of drawing commands per icon, and the whole run as a
trace of effects (stdout lines, image saves, text-file writes), with the
capability branch and write failures made explicit.
-/

namespace CreateIcons

/-- An RGBA color, as the 4-tuples appearing literally in the script. -/
abbrev Color := Nat × Nat × Nat × Nat

/-- The fixed size list of the script (line 10 / line 46). -/
def sizes : List Nat := [16, 32, 48, 128]

/-- `margin = max(2, size // 8)` (line 18). -/
def margin (size : Nat) : Nat := max 2 (size / 8)

/-- `box_width = size // 3` (line 21). -/
def box_width (size : Nat) : Nat := size / 3

/-- `box_height = size // 2` (line 22). -/
def box_height (size : Nat) : Nat := size / 2

/-- `box_x = margin` (line 23). -/
def box_x (size : Nat) : Nat := margin size

/-- `box_y = (size - box_height) // 2` (line 24). -/
def box_y (size : Nat) : Nat := (size - box_height size) / 2

/-- `wave_x = box_x + box_width + margin` (line 30). -/
def wave_x (size : Nat) : Nat := box_x size + box_width size + margin size

/-- `center_y = size // 2` (line 31). -/
def center_y (size : Nat) : Nat := size / 2

/-- `radius = (i + 1) * (size // 8)` for loop index `i` (line 35). -/
def radius (size i : Nat) : Nat := (i + 1) * (size / 8)

/-- The arc stroke width `max(1, size // 32)` (line 39). -/
def strokeWidth (size : Nat) : Nat := max 1 (size / 32)

/-- A drawing primitive issued to the canvas: a filled rectangle with outline
(`draw.rectangle`, line 26) or an arc given by its bounding box, start/end
angles, stroke color and width (`draw.arc`, lines 37-39).  Coordinates are
integers, as Python's; they may in general be negative in an arc bounding
box. -/
inductive DrawCmd where
  | rectangle (x0 y0 x1 y1 : Int) (fill outline : Color)
  | arc (x0 y0 x1 y1 : Int) (startAngle endAngle : Int) (stroke : Color) (w : Nat)
deriving DecidableEq

/-- The arc the spec describes: centered at `(cx, cy)` with radius `r`, the given
angle range, stroke color and width — translated to the bounding-box form the
canvas layer receives, `[cx - r, cy - r, cx + r, cy + r]`. -/
def specArc (cx cy r a0 a1 : Int) (stroke : Color) (w : Nat) : DrawCmd :=
  DrawCmd.arc (cx - r) (cy - r) (cx + r) (cy + r) a0 a1 stroke w

/-- The list of drawing commands issued for one icon of side `size`
(lines 18-39): the speaker rectangle, then for each `i` in `range(3)` the arc of
radius `(i+1)*(size // 8)`, drawn only when `wave_x + radius < size - margin`. -/
def renderIcon (size : Nat) : List DrawCmd :=
  DrawCmd.rectangle (box_x size) (box_y size)
      (box_x size + box_width size) (box_y size + box_height size)
      (64, 128, 255, 255) (32, 64, 128, 255) ::
    (List.range 3).filterMap (fun i =>
      if (wave_x size : Int) + radius size i < (size : Int) - margin size then
        some (DrawCmd.arc ((wave_x size : Int) - radius size i)
          ((center_y size : Int) - radius size i)
          ((wave_x size : Int) + radius size i)
          ((center_y size : Int) + radius size i)
          (-30) 30 (64, 128, 255, 255) (strokeWidth size))
      else none)

/-- The output filename `icon-{size}.png` (lines 41 and 47). -/
def iconName (size : Nat) : String := "icon-" ++ toString size ++ ".png"

/-- The placeholder file content `# Placeholder icon {size}x{size}\n` (line 48). -/
def placeholderContent (size : Nat) : String :=
  "# Placeholder icon " ++ toString size ++ "x" ++ toString size ++ "\n"

/-- The fallback notice printed when the import fails (line 45). -/
def fallbackNotice : String :=
  "PIL not available, creating simple text files as placeholders"

/-- An observable effect of a run: a stdout line, an image saved under a
filename, or a text file written with some content. -/
inductive Effect where
  | stdout (line : String)
  | saveImage (name : String) (img : List DrawCmd)
  | writeTextFile (name content : String)
deriving DecidableEq

/-- A Python exception that can end the run: the ImportError of line 7, or an
OSError from a filesystem write (`img.save` / `open`/`write`). -/
inductive PyError where
  | importError
  | osError
deriving DecidableEq

/-- The outcome of (a part of) a run: the effects performed, in order, and the
uncaught exception that terminated it, if any. -/
structure RunResult where
  effects : List Effect
  error : Option PyError
deriving DecidableEq

/-- The rendering loop (lines 12-42) over a list of sizes.  `w` tells whether
the filesystem write for a given filename succeeds; a failing `img.save`
raises OSError, ending the loop with no further effects. -/
def renderSizes (w : String → Bool) : List Nat → RunResult
  | [] => ⟨[], none⟩
  | size :: rest =>
    if w (iconName size) then
      ⟨Effect.saveImage (iconName size) (renderIcon size) ::
          Effect.stdout ("Created " ++ iconName size) :: (renderSizes w rest).effects,
        (renderSizes w rest).error⟩
    else
      ⟨[], some PyError.osError⟩

/-- The placeholder loop (lines 46-48): one text file per size; a failing write
raises OSError, ending the loop. -/
def placeholderSizes (w : String → Bool) : List Nat → RunResult
  | [] => ⟨[], none⟩
  | size :: rest =>
    if w (iconName size) then
      ⟨Effect.writeTextFile (iconName size) (placeholderContent size) ::
          (placeholderSizes w rest).effects,
        (placeholderSizes w rest).error⟩
    else
      ⟨[], some PyError.osError⟩

/-- The body of the `try` block (lines 6-42): when the drawing library is
available the acquisition succeeds and the rendering loop runs; otherwise
the acquisition itself raises ImportError before any effect. -/
def importBody (pil : Bool) (w : String → Bool) : RunResult :=
  if pil then renderSizes w sizes else ⟨[], some PyError.importError⟩

/-- `except ImportError` (line 44): the handler runs exactly when the body
ended with ImportError; any other exception (or none) passes through. -/
def catchImportError (body handler : RunResult) : RunResult :=
  match body.error with
  | some PyError.importError => ⟨body.effects ++ handler.effects, handler.error⟩
  | _ => body

/-- The handler of lines 44-48: print the fallback notice, then run the
placeholder loop over all sizes. -/
def handlerRun (w : String → Bool) : RunResult :=
  ⟨Effect.stdout fallbackNotice :: (placeholderSizes w sizes).effects,
    (placeholderSizes w sizes).error⟩

/-- The whole script: try the rendering body, catching only ImportError with
the placeholder handler.  `pil` is whether the drawing library is available,
`w` whether each filesystem write succeeds. -/
def script (pil : Bool) (w : String → Bool) : RunResult :=
  catchImportError (importBody pil w) (handlerRun w)

/-- The environment in which every filesystem write succeeds. -/
def allOk : String → Bool := fun _ => true

/-- The filename an effect creates an artifact under, if it is a file effect. -/
def artifactName : Effect → Option String
  | Effect.stdout _ => none
  | Effect.saveImage n _ => some n
  | Effect.writeTextFile n _ => some n

/-- The stdout lines of a run result, in order. -/
def stdoutLines (r : RunResult) : List String :=
  r.effects.filterMap (fun e =>
    match e with
    | Effect.stdout s => some s
    | _ => none)

/-- Whether an effect is a placeholder text-file write. -/
def isTextWrite : Effect → Bool
  | Effect.writeTextFile _ _ => true
  | _ => false

/-- Whether an effect is an image save. -/
def isImageSave : Effect → Bool
  | Effect.saveImage _ _ => true
  | _ => false

/-- Whether a drawing command is an arc. -/
def isArc : DrawCmd → Bool
  | DrawCmd.arc _ _ _ _ _ _ _ _ => true
  | _ => false

end CreateIcons

namespace CreateIcons

/-- The rendering loop never ends with ImportError: the import happens before
it starts, and `img.save` can only raise OSError. -/
theorem renderSizes_error_ne_import (w : String → Bool) (l : List Nat) :
    (renderSizes w l).error ≠ some PyError.importError := by
  induction l with
  | nil => simp [renderSizes]
  | cons a rest ih =>
    simp only [renderSizes]
    split
    · simpa using ih
    · simp

/-- The placeholder loop never ends with ImportError either. -/
theorem placeholderSizes_error_ne_import (w : String → Bool) (l : List Nat) :
    (placeholderSizes w l).error ≠ some PyError.importError := by
  induction l with
  | nil => simp [placeholderSizes]
  | cons a rest ih =>
    simp only [placeholderSizes]
    split
    · simpa using ih
    · simp

/-- The rendering loop ends with an uncaught OSError exactly when the write for
some size in the list fails. -/
theorem renderSizes_osError_iff (w : String → Bool) (l : List Nat) :
    (renderSizes w l).error = some PyError.osError ↔ ∃ s ∈ l, w (iconName s) = false := by
  induction l with
  | nil => simp [renderSizes]
  | cons a rest ih =>
    simp only [renderSizes]
    by_cases h : w (iconName a)
    · rw [if_pos h]
      simp only [ih]
      constructor
      · rintro ⟨s, hs, hws⟩
        exact ⟨s, List.mem_cons_of_mem _ hs, hws⟩
      · rintro ⟨s, hs, hws⟩
        rcases List.mem_cons.mp hs with rfl | hs
        · rw [h] at hws; cases hws
        · exact ⟨s, hs, hws⟩
    · rw [if_neg h]
      refine ⟨fun _ => ⟨a, List.mem_cons_self a rest, ?_⟩, fun _ => rfl⟩
      simpa using h

/-- The placeholder loop ends with an uncaught OSError exactly when the write
for some size in the list fails. -/
theorem placeholderSizes_osError_iff (w : String → Bool) (l : List Nat) :
    (placeholderSizes w l).error = some PyError.osError ↔ ∃ s ∈ l, w (iconName s) = false := by
  induction l with
  | nil => simp [placeholderSizes]
  | cons a rest ih =>
    simp only [placeholderSizes]
    by_cases h : w (iconName a)
    · rw [if_pos h]
      simp only [ih]
      constructor
      · rintro ⟨s, hs, hws⟩
        exact ⟨s, List.mem_cons_of_mem _ hs, hws⟩
      · rintro ⟨s, hs, hws⟩
        rcases List.mem_cons.mp hs with rfl | hs
        · rw [h] at hws; cases hws
        · exact ⟨s, hs, hws⟩
    · rw [if_neg h]
      refine ⟨fun _ => ⟨a, List.mem_cons_self a rest, ?_⟩, fun _ => rfl⟩
      simpa using h

/-- The rendering loop writes no placeholder text file. -/
theorem renderSizes_no_textWrite (w : String → Bool) (l : List Nat) :
    ∀ e ∈ (renderSizes w l).effects, isTextWrite e = false := by
  induction l with
  | nil => simp [renderSizes]
  | cons a rest ih =>
    simp only [renderSizes]
    split
    · intro e he
      rcases List.mem_cons.mp he with rfl | he
      · rfl
      · rcases List.mem_cons.mp he with rfl | he
        · rfl
        · exact ih e he
    · simp

/-- The placeholder loop saves no image. -/
theorem placeholderSizes_no_save (w : String → Bool) (l : List Nat) :
    ∀ e ∈ (placeholderSizes w l).effects, isImageSave e = false := by
  induction l with
  | nil => simp [placeholderSizes]
  | cons a rest ih =>
    simp only [placeholderSizes]
    split
    · intro e he
      rcases List.mem_cons.mp he with rfl | he
      · rfl
      · exact ih e he
    · simp

/-- Whatever writes fail, the rendering loop performs an initial segment of the
effects of a fully successful run: it stops at the first failure, with no
retry and no cleanup of files already written. -/
theorem renderSizes_take (w : String → Bool) (l : List Nat) :
    ∃ k, (renderSizes w l).effects = ((renderSizes allOk l).effects).take k := by
  induction l with
  | nil => exact ⟨0, rfl⟩
  | cons a rest ih =>
    by_cases h : w (iconName a)
    · obtain ⟨k, hk⟩ := ih
      exact ⟨k + 2, by simp [renderSizes, h, allOk, hk]⟩
    · exact ⟨0, by simp [renderSizes, h]⟩

/-- The same initial-segment property for the placeholder loop. -/
theorem placeholderSizes_take (w : String → Bool) (l : List Nat) :
    ∃ k, (placeholderSizes w l).effects = ((placeholderSizes allOk l).effects).take k := by
  induction l with
  | nil => exact ⟨0, rfl⟩
  | cons a rest ih =>
    by_cases h : w (iconName a)
    · obtain ⟨k, hk⟩ := ih
      exact ⟨k + 1, by simp [placeholderSizes, h, allOk, hk]⟩
    · exact ⟨0, by simp [placeholderSizes, h]⟩

/-- A rendering run that ends without error equals the run in which every
write succeeds: the loop consults nothing but the write outcomes. -/
theorem renderSizes_eq_of_ok (w : String → Bool) (l : List Nat)
    (h : (renderSizes w l).error = none) :
    renderSizes w l = renderSizes allOk l := by
  induction l with
  | nil => rfl
  | cons a rest ih =>
    by_cases hw : w (iconName a)
    · have hrest : (renderSizes w rest).error = none := by
        simpa [renderSizes, hw] using h
      simp [renderSizes, hw, allOk, ih hrest]
    · exact absurd h (by simp [renderSizes, hw])

/-- With the drawing library available the script is exactly the rendering
loop: the `except ImportError` clause never fires, because the body can only
raise OSError. -/
theorem script_true (w : String → Bool) : script true w = renderSizes w sizes := by
  have hbody : importBody true w = renderSizes w sizes := by simp [importBody]
  unfold script catchImportError
  rw [hbody]
  cases herr : (renderSizes w sizes).error with
  | none => rfl
  | some e =>
    cases e with
    | importError => exact absurd herr (renderSizes_error_ne_import w sizes)
    | osError => rfl

/-- With the drawing library unavailable the script is exactly the handler:
the fallback notice followed by the placeholder loop. -/
theorem script_false (w : String → Bool) : script false w = handlerRun w := by
  unfold script catchImportError importBody handlerRun
  rfl

/-- Claim C1: for every size S in {16, 32, 48, 128}, the rendering path
computes its geometry with integer (floor) division — margin = max(2, S / 8),
box_width = S / 3, box_height = S / 2, box origin (margin, (S - box_height) / 2)
— and its first drawing command is the filled rectangle from that origin to
(origin.x + box_width, origin.y + box_height) with fill color (64,128,255,255)
and outline color (32,64,128,255). -/
theorem C1_rectangle_geometry : ∀ s ∈ sizes,
    margin s = max 2 (s / 8) ∧ box_width s = s / 3 ∧ box_height s = s / 2 ∧
    box_x s = margin s ∧ box_y s = (s - box_height s) / 2 ∧
    (renderIcon s).head? = some (DrawCmd.rectangle (box_x s) (box_y s)
      (box_x s + box_width s) (box_y s + box_height s)
      (64, 128, 255, 255) (32, 64, 128, 255)) := by decide

/-- Witness for C1 at S = 16. -/
theorem C1_rectangle_geometry_witness : 16 ∈ sizes ∧
    (margin 16 = max 2 (16 / 8) ∧ box_width 16 = 16 / 3 ∧ box_height 16 = 16 / 2 ∧
    box_x 16 = margin 16 ∧ box_y 16 = (16 - box_height 16) / 2 ∧
    (renderIcon 16).head? = some (DrawCmd.rectangle (box_x 16) (box_y 16)
      (box_x 16 + box_width 16) (box_y 16 + box_height 16)
      (64, 128, 255, 255) (32, 64, 128, 255))) :=
  ⟨by decide, C1_rectangle_geometry 16 (by decide)⟩

/-- Claim C2: for every size S in {16, 32, 48, 128} and loop index i in
{0,1,2}, with wave_x = box_x + box_width + margin and center_y = S / 2 and
radius = (i+1) * (S / 8), the icon contains the arc centered at
(wave_x, center_y) of that radius, with angle range [-30, 30], stroke color
(64,128,255,255) and stroke width max(1, S / 32), if and only if
wave_x + radius < S - margin; a skipped arc causes no error (the rendering run
ends with no exception). -/
theorem C2_arc_loop : ∀ s ∈ sizes, ∀ i < 3,
    (specArc (wave_x s) (center_y s) (radius s i) (-30) 30 (64, 128, 255, 255)
        (max 1 (s / 32)) ∈ renderIcon s
      ↔ (wave_x s : Int) + radius s i < (s : Int) - margin s)
    ∧ wave_x s = box_x s + box_width s + margin s
    ∧ center_y s = s / 2
    ∧ radius s i = (i + 1) * (s / 8)
    ∧ (script true allOk).error = none := by decide

/-- Witness for C2 at S = 16, i = 2 (the skipped arc). -/
theorem C2_arc_loop_witness : 16 ∈ sizes ∧ 2 < 3 ∧
    ((specArc (wave_x 16) (center_y 16) (radius 16 2) (-30) 30 (64, 128, 255, 255)
        (max 1 (16 / 32)) ∈ renderIcon 16
      ↔ (wave_x 16 : Int) + radius 16 2 < (16 : Int) - margin 16)
    ∧ wave_x 16 = box_x 16 + box_width 16 + margin 16
    ∧ center_y 16 = 16 / 2
    ∧ radius 16 2 = (2 + 1) * (16 / 8)
    ∧ (script true allOk).error = none) :=
  ⟨by decide, by decide, C2_arc_loop 16 (by decide) 2 (by decide)⟩

/-- Claim C3: when the drawing capability is unavailable, for every size S in
{16, 32, 48, 128} the run writes a text file named `icon-{S}.png` whose content
is exactly the single line `# Placeholder icon {S}x{S}` followed by a newline,
and no artifact under that name has any other content. -/
theorem C3_placeholder_files : ∀ s ∈ sizes,
    Effect.writeTextFile ("icon-" ++ toString s ++ ".png")
        ("# Placeholder icon " ++ toString s ++ "x" ++ toString s ++ "\n")
      ∈ (script false allOk).effects
    ∧ ∀ e ∈ (script false allOk).effects,
        artifactName e = some ("icon-" ++ toString s ++ ".png") →
        e = Effect.writeTextFile ("icon-" ++ toString s ++ ".png")
            ("# Placeholder icon " ++ toString s ++ "x" ++ toString s ++ "\n") := by decide

/-- Witness for C3 at S = 128. -/
theorem C3_placeholder_files_witness : 128 ∈ sizes ∧
    (Effect.writeTextFile ("icon-" ++ toString 128 ++ ".png")
        ("# Placeholder icon " ++ toString 128 ++ "x" ++ toString 128 ++ "\n")
      ∈ (script false allOk).effects
    ∧ ∀ e ∈ (script false allOk).effects,
        artifactName e = some ("icon-" ++ toString 128 ++ ".png") →
        e = Effect.writeTextFile ("icon-" ++ toString 128 ++ ".png")
            ("# Placeholder icon " ++ toString 128 ++ "x" ++ toString 128 ++ "\n")) :=
  ⟨by decide, C3_placeholder_files 128 (by decide)⟩

/-- Claim C4: for S = 16 the radius at i = 2 equals 6; the third arc is in the
icon if and only if wave_x + 6 < 16 - margin, that inequality is false
(wave_x = 9, margin = 2, and 15 < 14 fails), and accordingly the third arc is
skipped. -/
theorem C4_arc_skip_boundary : radius 16 2 = 6
    ∧ ((specArc (wave_x 16) (center_y 16) 6 (-30) 30 (64, 128, 255, 255) (strokeWidth 16)
          ∈ renderIcon 16)
        ↔ (wave_x 16 : Int) + 6 < (16 : Int) - margin 16)
    ∧ ¬ ((wave_x 16 : Int) + 6 < (16 : Int) - margin 16)
    ∧ specArc (wave_x 16) (center_y 16) 6 (-30) 30 (64, 128, 255, 255) (strokeWidth 16)
        ∉ renderIcon 16 := by decide

/-- Claim C5: in either mode (placeholder or rendering), a run produces exactly
one file artifact per size, and the artifact names are exactly
`icon-{S}.png` for S in {16, 32, 48, 128}, in both code paths. -/
theorem C5_one_artifact_per_size : ∀ pil ∈ [false, true],
    ((script pil allOk).effects.filterMap artifactName = sizes.map iconName)
    ∧ ∀ s ∈ sizes,
        ((script pil allOk).effects.filterMap artifactName).count (iconName s) = 1 := by decide

/-- Witness for C5 in placeholder mode. -/
theorem C5_one_artifact_per_size_witness : false ∈ [false, true] ∧
    (((script false allOk).effects.filterMap artifactName = sizes.map iconName)
    ∧ ∀ s ∈ sizes,
        ((script false allOk).effects.filterMap artifactName).count (iconName s) = 1) :=
  ⟨by decide, C5_one_artifact_per_size false (by decide)⟩

/-- Claim C6: the sizes are processed in the fixed ascending order
16, 32, 48, 128; the rendering run prints exactly the four lines
`Created icon-{S}.png` in that order and saves artifacts in that order, while
the placeholder run prints only the single fallback notice, as its first
effect, and no per-file confirmation. -/
theorem C6_output_order : sizes = [16, 32, 48, 128]
    ∧ stdoutLines (script true allOk) =
        ["Created icon-16.png", "Created icon-32.png", "Created icon-48.png",
          "Created icon-128.png"]
    ∧ (script true allOk).effects.filterMap artifactName =
        ["icon-16.png", "icon-32.png", "icon-48.png", "icon-128.png"]
    ∧ stdoutLines (script false allOk) = [fallbackNotice]
    ∧ (script false allOk).effects.head? = some (Effect.stdout fallbackNotice)
    ∧ fallbackNotice = "PIL not available, creating simple text files as placeholders" := by
  decide

/-- Claim C7: for any write environment and either capability value, the run
writes placeholder text files only when the capability is unavailable; with it
unavailable it never saves an image; ImportError never escapes the run (it is
the one caught exception); an uncaught OSError terminates the run exactly when
some per-size write fails; and the effects performed are always an initial
segment of a fully successful run's effects — no retry, no partial-success
reporting, no cleanup. -/
theorem C7_error_handling : ∀ (w : String → Bool) (pil : Bool),
    ((∃ e ∈ (script pil w).effects, isTextWrite e = true) → pil = false)
    ∧ (pil = false → ∀ e ∈ (script pil w).effects, isImageSave e = false)
    ∧ (script pil w).error ≠ some PyError.importError
    ∧ ((script pil w).error = some PyError.osError ↔ ∃ s ∈ sizes, w (iconName s) = false)
    ∧ ∃ k, (script pil w).effects = ((script pil allOk).effects).take k := by
  intro w pil
  cases pil with
  | true =>
    rw [script_true w, script_true allOk]
    refine ⟨?_, ?_, ?_, ?_, ?_⟩
    · rintro ⟨e, he, het⟩
      simp [renderSizes_no_textWrite w sizes e he] at het
    · intro h
      exact absurd h (by decide)
    · exact renderSizes_error_ne_import w sizes
    · exact renderSizes_osError_iff w sizes
    · exact renderSizes_take w sizes
  | false =>
    rw [script_false w, script_false allOk]
    refine ⟨fun _ => rfl, ?_, ?_, ?_, ?_⟩
    · intro _ e he
      rcases List.mem_cons.mp he with rfl | he
      · rfl
      · exact placeholderSizes_no_save w sizes e he
    · exact placeholderSizes_error_ne_import w sizes
    · exact placeholderSizes_osError_iff w sizes
    · obtain ⟨k, hk⟩ := placeholderSizes_take w sizes
      exact ⟨k + 1, by simp [handlerRun, hk]⟩

/-- Witness for C7: in rendering mode with every write failing, the run ends
with an uncaught OSError. -/
theorem C7_error_handling_witness :
    (script true (fun _ => false)).error = some PyError.osError :=
  ((C7_error_handling (fun _ => false) true).2.2.2.1).mpr ⟨16, by decide, rfl⟩

/-- Claim C8: for S = 16 the rendering path computes margin = 2, box_width = 5,
box_height = 8, and the speaker rectangle — from (2,4) to (7,12) — lies
entirely within the 16 by 16 canvas bounds. -/
theorem C8_small_icon_bounds : margin 16 = 2 ∧ box_width 16 = 5 ∧ box_height 16 = 8
    ∧ (renderIcon 16).head? =
        some (DrawCmd.rectangle 2 4 7 12 (64, 128, 255, 255) (32, 64, 128, 255))
    ∧ 0 ≤ box_x 16 ∧ 0 ≤ box_y 16
    ∧ box_x 16 + box_width 16 < 16 ∧ box_y 16 + box_height 16 < 16 := by decide

/-- Claim C9: the generator is deterministic — it takes no input and uses no
randomness — so any two successful rendering-mode runs, under any two write
environments, produce identical effects, in particular byte-identical image
artifacts for every size. -/
theorem C9_deterministic : ∀ w1 w2 : String → Bool,
    (script true w1).error = none → (script true w2).error = none →
    script true w1 = script true w2 := by
  intro w1 w2 h1 h2
  rw [script_true w1] at h1 ⊢
  rw [script_true w2] at h2 ⊢
  exact (renderSizes_eq_of_ok w1 sizes h1).trans (renderSizes_eq_of_ok w2 sizes h2).symm

/-- Witness for C9: two runs in the all-writes-succeed environment. -/
theorem C9_deterministic_witness :
    (script true allOk).error = none ∧ script true allOk = script true allOk :=
  ⟨by decide, C9_deterministic allOk allOk (by decide) (by decide)⟩

/-- Claim C10: at every supported size the icon contains exactly two arcs: the
arcs for i = 0 and i = 1 satisfy wave_x + radius < S - margin and are drawn,
while the i = 2 arc fails the bound and is absent. -/
theorem C10_exactly_two_arcs : ∀ s ∈ sizes,
    ((renderIcon s).filter isArc).length = 2
    ∧ ((wave_x s : Int) + radius s 0 < (s : Int) - margin s)
    ∧ ((wave_x s : Int) + radius s 1 < (s : Int) - margin s)
    ∧ ¬ ((wave_x s : Int) + radius s 2 < (s : Int) - margin s)
    ∧ specArc (wave_x s) (center_y s) (radius s 0) (-30) 30 (64, 128, 255, 255)
        (strokeWidth s) ∈ renderIcon s
    ∧ specArc (wave_x s) (center_y s) (radius s 1) (-30) 30 (64, 128, 255, 255)
        (strokeWidth s) ∈ renderIcon s
    ∧ specArc (wave_x s) (center_y s) (radius s 2) (-30) 30 (64, 128, 255, 255)
        (strokeWidth s) ∉ renderIcon s := by decide

/-- Witness for C10 at S = 32. -/
theorem C10_exactly_two_arcs_witness : 32 ∈ sizes ∧
    (((renderIcon 32).filter isArc).length = 2
    ∧ ((wave_x 32 : Int) + radius 32 0 < (32 : Int) - margin 32)
    ∧ ((wave_x 32 : Int) + radius 32 1 < (32 : Int) - margin 32)
    ∧ ¬ ((wave_x 32 : Int) + radius 32 2 < (32 : Int) - margin 32)
    ∧ specArc (wave_x 32) (center_y 32) (radius 32 0) (-30) 30 (64, 128, 255, 255)
        (strokeWidth 32) ∈ renderIcon 32
    ∧ specArc (wave_x 32) (center_y 32) (radius 32 1) (-30) 30 (64, 128, 255, 255)
        (strokeWidth 32) ∈ renderIcon 32
    ∧ specArc (wave_x 32) (center_y 32) (radius 32 2) (-30) 30 (64, 128, 255, 255)
        (strokeWidth 32) ∉ renderIcon 32) :=
  ⟨by decide, C10_exactly_two_arcs 32 (by decide)⟩

end CreateIcons
